import Mathlib

/-!
Shallow embedding of the tool-orchestration core of the GitHub analysis
client (`src/github_analysis/client/client.py`).

The client talks to three external collaborators, which we model as
function-valued parameters gathered in `ToolEnv`:
  * `parse`   — `json.loads`, partial (`none` = the parse raised);
  * `dumps`   — `json.dumps`, an opaque serializer;
  * `repoInfoResult` / `commitsResult` — the MCP `call_tool` round trip,
    returning the shape of `result.content` or recording that the call
    raised a transport-level error;
  * `chat`    — `ollama.chat`, returning the generated text for a message
    sequence.

Workflow handlers are embedded as functions returning the list of
observable events they perform (tool invocations actually issued,
analyze calls with their three string arguments, printed analysis
output), so that invocation counts and call arguments are provable
facts about the definitions.
-/

namespace GithubAnalysis

/-- JSON-like values, the payloads produced by `json.loads` on a tool
response. -/
inductive JValue where
  | null
  | bool (b : Bool)
  | num (n : Int)
  | str (s : String)
  | arr (elems : List JValue)
  | obj (members : List (String × JValue))

/-- Python truthiness of a parsed JSON payload (`if not commits: ...`):
`None`/`null`, `False`, `0`, empty string, empty list and empty dict are
falsy. -/
def JValue.truthy : JValue → Bool
  | .null => false
  | .bool b => b
  | .num n => n != 0
  | .str s => s != ""
  | .arr elems => !elems.isEmpty
  | .obj members => !members.isEmpty

/-- One block of `result.content` as inspected by the client: either a
`TextContent` carrying a string, or some other block type. -/
inductive ContentBlock where
  | text (s : String)
  | nonText

/-- Outcome of one `session.call_tool` round trip, as seen by the client
before any parsing: the call raised, `result.content` was not a list, or
it was a list of blocks. -/
inductive CallOutcome where
  | raised
  | nonList
  | blocks (content : List ContentBlock)

/-- One role-tagged chat message. -/
structure Message where
  role : String
  content : String
deriving DecidableEq

/-- Behaviour of the external collaborators for one run. -/
structure ToolEnv where
  parse : String → Option JValue
  dumps : JValue → String
  repoInfoResult : String → String → CallOutcome
  commitsResult : String → String → Nat → CallOutcome
  chat : List Message → String

/-- The client's own state: the `disable_tools` flag and whether a
session object is set (`self.session`). -/
structure Client where
  disable_tools : Bool
  session : Option Unit

/-- Observable events of a workflow run: a tool invocation actually
issued to the provider, a call to `analyze_with_ollama` with its three
string arguments, and printed analysis output. -/
inductive Event where
  | toolCall (name owner repo : String) (limit : Option Nat)
  | analyzeCall (system_prompt context user_prompt : String)
  | output (text : String)
deriving DecidableEq

/-- Embedding of `GitHubAnalysisClient.get_repo_info`: returns the
parsed payload (or `none`) together with the tool invocations issued.
Every failure — disabled channel, missing session, transport error,
non-list or empty content, non-text first block, unparseable JSON — is
normalized to `none` by the surrounding `try`/`except`. -/
def get_repo_info (env : ToolEnv) (c : Client) (owner repo : String) :
    Option JValue × List Event :=
  if c.disable_tools then (none, [])
  else
    match c.session with
    | none => (none, [])
    | some _ =>
      let evs := [Event.toolCall "get_repo_info" owner repo none]
      (match env.repoInfoResult owner repo with
       | .raised => none
       | .nonList => none
       | .blocks [] => none
       | .blocks (first_content :: _) =>
         match first_content with
         | .text s => env.parse s
         | .nonText => none,
       evs)

/-- Embedding of `GitHubAnalysisClient.get_commits`, identical in shape
to `get_repo_info` but invoking `get_commit_history` with a limit. -/
def get_commits (env : ToolEnv) (c : Client) (owner repo : String) (limit : Nat) :
    Option JValue × List Event :=
  if c.disable_tools then (none, [])
  else
    match c.session with
    | none => (none, [])
    | some _ =>
      let evs := [Event.toolCall "get_commit_history" owner repo (some limit)]
      (match env.commitsResult owner repo limit with
       | .raised => none
       | .nonList => none
       | .blocks [] => none
       | .blocks (first_content :: _) =>
         match first_content with
         | .text s => env.parse s
         | .nonText => none,
       evs)

/-- Python truthiness of an `Option JValue` result (`if not commits`). -/
def pyTruthy : Option JValue → Bool
  | none => false
  | some v => v.truthy

/-- Embedding of `analyze_with_ollama`: builds the message sequence
(system prompt always; context as a second system message when
non-empty; user prompt as a user message when non-empty) and returns it
together with the text generated by the chat collaborator. -/
def analyze_with_ollama (env : ToolEnv)
    (system_prompt context user_prompt : String) : List Message × String :=
  let messages : List Message := [⟨"system", system_prompt⟩]
  let messages := if context != "" then messages ++ [⟨"system", context⟩] else messages
  let messages := if user_prompt != "" then messages ++ [⟨"user", user_prompt⟩] else messages
  (messages, env.chat messages)

/-- The events produced by one `analyze_with_ollama` call followed by
printing its result. -/
def analyze_events (env : ToolEnv)
    (system_prompt context user_prompt : String) : List Event :=
  [Event.analyzeCall system_prompt context user_prompt,
   Event.output (analyze_with_ollama env system_prompt context user_prompt).2]

/-- Substring containment, the meaning of the Python expression
`keyword in prompt`. -/
def strContains (s pat : String) : Bool := decide (pat.data <:+: s.data)

/-- The ten commit keywords of `_needs_commit_info`. -/
def commit_keywords : List String :=
  ["commit", "change", "diff", "modified", "added",
   "deleted", "history", "previous", "version", "update"]

/-- The eight repository keywords of `_needs_repo_info`. -/
def repo_keywords : List String :=
  ["repo", "repository", "project", "codebase",
   "structure", "directory", "files", "organization"]

/-- Lowercasing, the meaning of `prompt.lower()`: every character is
lowercased. -/
def toLowerStr (s : String) : String := ⟨s.data.map Char.toLower⟩

/-- Embedding of `_needs_commit_info`. -/
def needs_commit_info (prompt : String) : Bool :=
  commit_keywords.any fun keyword => strContains (toLowerStr prompt) keyword

/-- Embedding of `_needs_repo_info`. -/
def needs_repo_info (prompt : String) : Bool :=
  repo_keywords.any fun keyword => strContains (toLowerStr prompt) keyword

/-- The system prompt of the commit-analysis workflow (an f-string of
owner and repo). -/
def commit_system_prompt (owner repo : String) : String :=
  "\n        Analyze the commit history of the GitHub repository " ++ owner ++ "/" ++ repo
    ++ ".\n        What insights can you provide about common themes, code areas modified, and notable changes?"
    ++ "\n        Please format your response in a clear, structured way.\n        "

/-- The system prompt of the repository-analysis workflow. -/
def repo_system_prompt (owner repo : String) : String :=
  "\n        Analyze this GitHub repository " ++ owner ++ "/" ++ repo
    ++ "\x27s information and provide insights about:"
    ++ "\n        1. Repository size and activity level\n        2. Main programming languages"
    ++ "\n        3. Notable features (stars, forks, etc.)"
    ++ "\n        Please format your response in a clear, structured, and concise way."
    ++ "\n        Note that your user have no idea what the repository is like.\n        "

/-- The extension appended to the repository-analysis prompt in the
tools-enabled branch. -/
def repo_system_prompt_extra : String :=
  "\n        Here are some metadata returned by the Github API as well as the README in raw text."
    ++ "\n        Use this to guide your response.\n        "

/-- The system prompt of the custom-analysis workflow. -/
def custom_system_prompt (owner repo : String) : String :=
  "\n        You are a GitHub repository analyzer.\n        The user will ask you questions about the repository "
    ++ owner ++ "/" ++ repo
    ++ " which they have no knowledge about.\n        Answer questions about the repository to the best of your ability.\n        "

/-- Embedding of `handle_commit_analysis`: in disabled mode analyze with
no context; otherwise fetch commits and, per `if not commits: return`,
stop early when the call produced no usable data. -/
def handle_commit_analysis (env : ToolEnv) (c : Client) (owner repo : String) :
    List Event :=
  let system_prompt := commit_system_prompt owner repo
  if c.disable_tools then analyze_events env system_prompt "" ""
  else
    let res := get_commits env c owner repo 5
    match res.1 with
    | none => res.2
    | some commits =>
      if commits.truthy = false then res.2
      else res.2 ++ analyze_events env system_prompt (env.dumps commits) ""

/-- Embedding of `handle_repo_analysis`: the enabled branch extends the
system prompt, fetches repo info and stops early (`if not repo_info:
return`) when the call produced no usable data. -/
def handle_repo_analysis (env : ToolEnv) (c : Client) (owner repo : String) :
    List Event :=
  let system_prompt := repo_system_prompt owner repo
  if c.disable_tools then analyze_events env system_prompt "" ""
  else
    let system_prompt := system_prompt ++ repo_system_prompt_extra
    let res := get_repo_info env c owner repo
    match res.1 with
    | none => res.2
    | some repo_info =>
      if repo_info.truthy = false then res.2
      else res.2 ++ analyze_events env system_prompt (env.dumps repo_info) ""

/-- The conditional insertion `if commits: context_dict["commits"] =
commits` of `handle_custom_analysis`, as the list of entries it adds. -/
def entryIf (label : String) (r : Option JValue) : List (String × JValue) :=
  match r with
  | some v => if v.truthy then [(label, v)] else []
  | none => []

/-- Embedding of `handle_custom_analysis`. The free-form prompt obtained
from the user is a parameter; an empty prompt returns immediately.
Returns the events together with the assembled `context_dict`. -/
def handle_custom_analysis (env : ToolEnv) (c : Client)
    (owner repo user_prompt : String) : List Event × List (String × JValue) :=
  let system_prompt := custom_system_prompt owner repo
  if user_prompt = "" then ([], [])
  else if c.disable_tools then
    (analyze_events env system_prompt "" user_prompt, [])
  else
    let need_commits := needs_commit_info user_prompt
    let need_repo_info := needs_repo_info user_prompt
    let cres := if need_commits then get_commits env c owner repo 5 else (none, [])
    let rres := if need_repo_info then get_repo_info env c owner repo else (none, [])
    let context_dict := entryIf "commits" cres.1 ++ entryIf "repo" rres.1
    let context := env.dumps (JValue.obj context_dict)
    (cres.2 ++ rres.2 ++ analyze_events env system_prompt context user_prompt,
     context_dict)

/-- The resources `connect_to_server` can enter on its exit stack. -/
inductive Resource where
  | transport
  | session
deriving DecidableEq

/-- Which steps of `connect_to_server` succeed in a given run: the
server script lookup, the stdio transport startup, the session
creation, the initialization handshake and the `list_tools` call. -/
structure ConnectEnv where
  scriptExists : Bool
  transportOk : Bool
  sessionOk : Bool
  initOk : Bool
  listToolsOk : Bool

/-- Result of a `connect_to_server` run: whether it returned without
raising, and which exit-stack resources remain held afterwards. -/
structure ConnectResult where
  success : Bool
  held : List Resource
deriving DecidableEq

/-- Semantics of `AsyncExitStack.aclose`: every resource on the stack is
released. -/
def aclose (stack : List Resource) : List Resource :=
  match stack with
  | _ => []

/-- Embedding of `connect_to_server`: disabled mode is a no-op; any
failing step lands in the `except` clause, which calls
`self.exit_stack.aclose()` on whatever was acquired so far and
re-raises. -/
def connect_to_server (env : ConnectEnv) (disable_tools : Bool) : ConnectResult :=
  if disable_tools then ⟨true, []⟩
  else if env.scriptExists = false then ⟨false, aclose []⟩
  else if env.transportOk = false then ⟨false, aclose []⟩
  else
    let stack := [Resource.transport]
    if env.sessionOk = false then ⟨false, aclose stack⟩
    else
      let stack := stack ++ [Resource.session]
      if env.initOk = false then ⟨false, aclose stack⟩
      else if env.listToolsOk = false then ⟨false, aclose stack⟩
      else ⟨true, stack⟩

/-- Recognizer for tool-invocation events. -/
def Event.isToolCall : Event → Bool
  | .toolCall .. => true
  | _ => false

/-- Number of tool invocations actually issued in an event list. -/
def toolCallCount (evs : List Event) : Nat :=
  (evs.filter Event.isToolCall).length

/-- The context arguments of the analyze calls in an event list, in
order. -/
def analyzeContexts (evs : List Event) : List String :=
  evs.filterMap fun e =>
    match e with
    | .analyzeCall _ context _ => some context
    | _ => none

/-- A sample collaborator environment in which every tool call raises a
transport-level error and the chat collaborator answers a fixed text. -/
def failingEnv : ToolEnv where
  parse := fun _ => none
  dumps := fun _ => "serialized"
  repoInfoResult := fun _ _ => CallOutcome.raised
  commitsResult := fun _ _ _ => CallOutcome.raised
  chat := fun _ => "generated analysis"

/-- A string is a substring in the `<:+:` sense exactly when the whole
string splits around it. -/
theorem strContains_iff (s pat : String) :
    strContains s pat = true ↔ ∃ p q : String, s = p ++ pat ++ q := by
  rw [strContains, decide_eq_true_eq]
  constructor
  · rintro ⟨t, u, h⟩
    refine ⟨⟨t⟩, ⟨u⟩, String.ext ?_⟩
    simpa using h.symm
  · rintro ⟨p, q, rfl⟩
    exact ⟨p.data, q.data, by simp⟩

/-- C2: for every query, `needsCommitData` holds exactly when the
lowercased query contains one of the ten commit keywords as a substring,
and independently `needsRepoData` holds exactly when it contains one of
the eight repository keywords; each predicate is a pure function of the
query alone. -/
theorem classify_keyword_spec (query : String) :
    (needs_commit_info query = true ↔
      ∃ k, k ∈ commit_keywords ∧ ∃ p q : String, toLowerStr query = p ++ k ++ q) ∧
    (needs_repo_info query = true ↔
      ∃ k, k ∈ repo_keywords ∧ ∃ p q : String, toLowerStr query = p ++ k ++ q) := by
  constructor
  · simp only [needs_commit_info, List.any_eq_true, strContains_iff]
  · simp only [needs_repo_info, List.any_eq_true, strContains_iff]

/-- C8: an empty user prompt makes the custom workflow return
immediately with no events (no output, no tool invocation, no analyze
call) and an empty context, in every channel configuration. -/
theorem custom_empty_prompt_aborts (env : ToolEnv) (c : Client) (owner repo : String) :
    handle_custom_analysis env c owner repo "" = ([], []) := by
  simp [handle_custom_analysis]

/-- C9: the message sequence sent by `analyze_with_ollama` is exactly
the system prompt, then the context as a second system message iff the
context is non-empty, then the user prompt as a user message iff it is
non-empty; the generated text is returned verbatim. -/
theorem analyze_message_sequence (env : ToolEnv)
    (system_prompt context user_prompt : String) :
    (context = "" → user_prompt = "" →
      (analyze_with_ollama env system_prompt context user_prompt).1 =
        [⟨"system", system_prompt⟩]) ∧
    (context ≠ "" → user_prompt = "" →
      (analyze_with_ollama env system_prompt context user_prompt).1 =
        [⟨"system", system_prompt⟩, ⟨"system", context⟩]) ∧
    (context = "" → user_prompt ≠ "" →
      (analyze_with_ollama env system_prompt context user_prompt).1 =
        [⟨"system", system_prompt⟩, ⟨"user", user_prompt⟩]) ∧
    (context ≠ "" → user_prompt ≠ "" →
      (analyze_with_ollama env system_prompt context user_prompt).1 =
        [⟨"system", system_prompt⟩, ⟨"system", context⟩, ⟨"user", user_prompt⟩]) ∧
    (analyze_with_ollama env system_prompt context user_prompt).2 =
      env.chat (analyze_with_ollama env system_prompt context user_prompt).1 := by
  refine ⟨?_, ?_, ?_, ?_, rfl⟩ <;> intro h1 h2 <;>
    simp [analyze_with_ollama, bne_iff_ne, h1, h2]

/-- C9 witness: with both context and user prompt present, all three
messages are sent in order. -/
theorem analyze_message_sequence_witness :
    (analyze_with_ollama failingEnv "sys" "ctx" "ask").1 =
      [⟨"system", "sys"⟩, ⟨"system", "ctx"⟩, ⟨"user", "ask"⟩] :=
  (analyze_message_sequence failingEnv "sys" "ctx" "ask").2.2.2.1
    (by decide) (by decide)

/-- C4: with the channel configured disabled, each of the three
workflows issues zero tool invocations and calls analyze exactly once
with an absent (empty) context. -/
theorem disabled_channel_invariant (env : ToolEnv) (s : Option Unit)
    (owner repo user_prompt : String) (h : user_prompt ≠ "") :
    toolCallCount (handle_commit_analysis env ⟨true, s⟩ owner repo) = 0 ∧
    analyzeContexts (handle_commit_analysis env ⟨true, s⟩ owner repo) = [""] ∧
    toolCallCount (handle_repo_analysis env ⟨true, s⟩ owner repo) = 0 ∧
    analyzeContexts (handle_repo_analysis env ⟨true, s⟩ owner repo) = [""] ∧
    toolCallCount (handle_custom_analysis env ⟨true, s⟩ owner repo user_prompt).1 = 0 ∧
    analyzeContexts (handle_custom_analysis env ⟨true, s⟩ owner repo user_prompt).1 = [""] := by
  refine ⟨?_, ?_, ?_, ?_, ?_, ?_⟩ <;>
    simp [handle_commit_analysis, handle_repo_analysis, handle_custom_analysis,
      analyze_events, toolCallCount, analyzeContexts, Event.isToolCall, h]

/-- C4 witness: the disabled-channel invariant at a concrete
configuration. -/
theorem disabled_channel_invariant_witness :
    toolCallCount (handle_commit_analysis failingEnv ⟨true, none⟩ "o" "r") = 0 ∧
    analyzeContexts (handle_commit_analysis failingEnv ⟨true, none⟩ "o" "r") = [""] ∧
    toolCallCount (handle_repo_analysis failingEnv ⟨true, none⟩ "o" "r") = 0 ∧
    analyzeContexts (handle_repo_analysis failingEnv ⟨true, none⟩ "o" "r") = [""] ∧
    toolCallCount (handle_custom_analysis failingEnv ⟨true, none⟩ "o" "r" "ask").1 = 0 ∧
    analyzeContexts (handle_custom_analysis failingEnv ⟨true, none⟩ "o" "r" "ask").1 = [""] :=
  disabled_channel_invariant failingEnv none "o" "r" "ask" (by decide)

/-- C6: whenever `connect_to_server` fails, every partially acquired
exit-stack resource has been released before the error propagates. -/
theorem connect_failure_releases (env : ConnectEnv) (disable_tools : Bool)
    (h : (connect_to_server env disable_tools).success = false) :
    (connect_to_server env disable_tools).held = [] := by
  unfold connect_to_server at h ⊢
  split_ifs at h ⊢ <;> simp_all [aclose]

/-- C6 witness: a run whose initialization handshake fails holds no
resources afterwards. -/
theorem connect_failure_releases_witness :
    (connect_to_server ⟨true, true, true, false, true⟩ false).held = [] :=
  connect_failure_releases ⟨true, true, true, false, true⟩ false (by decide)

/-- C3: a tool invocation yields data exactly when the channel is
enabled, a session exists, the provider returned a list of blocks whose
first is text, and that text parses; in every other case — disabled
channel, missing session, transport error, non-list content, empty
content, non-text first block, unparseable text — the result is
normalized to no data, and no exception propagates (the embedding is a
total function). -/
theorem invoke_normalized (env : ToolEnv) (c : Client) (owner repo : String)
    (limit : Nat) (v : JValue) :
    ((get_repo_info env c owner repo).1 = some v ↔
      c.disable_tools = false ∧ c.session ≠ none ∧
      ∃ s rest,
        env.repoInfoResult owner repo = CallOutcome.blocks (ContentBlock.text s :: rest) ∧
        env.parse s = some v) ∧
    ((get_commits env c owner repo limit).1 = some v ↔
      c.disable_tools = false ∧ c.session ≠ none ∧
      ∃ s rest,
        env.commitsResult owner repo limit = CallOutcome.blocks (ContentBlock.text s :: rest) ∧
        env.parse s = some v) := by
  obtain ⟨dt, sess⟩ := c
  constructor
  · cases dt
    · cases sess
      · simp [get_repo_info]
      · rcases hout : env.repoInfoResult owner repo with _ | _ | (_ | ⟨⟨s⟩ | _, rest⟩) <;>
          simp [get_repo_info, hout]
    · simp [get_repo_info]
  · cases dt
    · cases sess
      · simp [get_commits]
      · rcases hout : env.commitsResult owner repo limit with _ | _ | (_ | ⟨⟨s⟩ | _, rest⟩) <;>
          simp [get_commits, hout]
    · simp [get_commits]

/-- The same collaborators, but with the commit-history tool raising a
transport error. -/
def withRaisedCommits (env : ToolEnv) : ToolEnv :=
  { env with commitsResult := fun _ _ _ => CallOutcome.raised }

/-- The same collaborators, but with the repo-info tool raising a
transport error. -/
def withRaisedRepoInfo (env : ToolEnv) : ToolEnv :=
  { env with repoInfoResult := fun _ _ => CallOutcome.raised }

/-- Collaborators in which the commit tool answers the JSON text of an
empty list — a successful call whose payload is falsy — while the repo
tool answers truthy data. -/
def commitsFalsyEnv : ToolEnv where
  parse := fun s =>
    if s = "[]" then some (JValue.arr [])
    else if s = "[2]" then some (JValue.arr [JValue.num 2])
    else none
  dumps := fun _ => "serialized"
  repoInfoResult := fun _ _ => CallOutcome.blocks [ContentBlock.text "[2]"]
  commitsResult := fun _ _ _ => CallOutcome.blocks [ContentBlock.text "[]"]
  chat := fun _ => "generated analysis"

/-- Collaborators in which the repo tool answers the JSON text of an
empty object — a successful call whose payload is falsy — while the
commit tool answers truthy data. -/
def repoFalsyEnv : ToolEnv where
  parse := fun s =>
    if s = "\x7b\x7d" then some (JValue.obj [])
    else if s = "[2]" then some (JValue.arr [JValue.num 2])
    else none
  dumps := fun _ => "serialized"
  repoInfoResult := fun _ _ => CallOutcome.blocks [ContentBlock.text "\x7b\x7d"]
  commitsResult := fun _ _ _ => CallOutcome.blocks [ContentBlock.text "[2]"]
  chat := fun _ => "generated analysis"

/-- Collaborators in which the commit tool answers usable data and the
repo tool raises: one of two needed calls fails. -/
def mixedEnv : ToolEnv where
  parse := fun s => if s = "[1]" then some (JValue.arr [JValue.num 1]) else none
  dumps := fun _ => "serialized"
  repoInfoResult := fun _ _ => CallOutcome.raised
  commitsResult := fun _ _ _ => CallOutcome.blocks [ContentBlock.text "[1]"]
  chat := fun _ => "generated analysis"

/-- Membership in one conditional context entry. -/
theorem mem_entryIf (label lab : String) (r : Option JValue) (v : JValue) :
    (lab, v) ∈ entryIf label r ↔ lab = label ∧ r = some v ∧ v.truthy = true := by
  rcases r with _ | w
  · simp [entryIf]
  · cases h : w.truthy <;> simp [entryIf, h] <;> aesop

/-- The tool-fetch helpers never produce analyze events. -/
theorem analyzeContexts_get_commits (env : ToolEnv) (c : Client)
    (owner repo : String) (limit : Nat) :
    analyzeContexts (get_commits env c owner repo limit).2 = [] := by
  rcases c with ⟨dt, sess⟩
  cases dt <;> rcases sess with _ | ⟨⟩ <;> simp [get_commits, analyzeContexts]

/-- The repo-fetch helper never produces analyze events. -/
theorem analyzeContexts_get_repo_info (env : ToolEnv) (c : Client)
    (owner repo : String) :
    analyzeContexts (get_repo_info env c owner repo).2 = [] := by
  rcases c with ⟨dt, sess⟩
  cases dt <;> rcases sess with _ | ⟨⟩ <;> simp [get_repo_info, analyzeContexts]

/-- Analyze contexts distribute over event concatenation. -/
theorem analyzeContexts_append (a b : List Event) :
    analyzeContexts (a ++ b) = analyzeContexts a ++ analyzeContexts b := by
  simp [analyzeContexts]

/-- One analyze-and-print step contributes exactly its context. -/
theorem analyzeContexts_analyze_events (env : ToolEnv)
    (system_prompt context user_prompt : String) :
    analyzeContexts (analyze_events env system_prompt context user_prompt) =
      [context] := by
  simp [analyze_events, analyzeContexts]

/-- C7: when classification sets both flags false, the custom workflow
assembles an empty context and issues no tool invocation; in particular
the query of the spec example triggers neither predicate. -/
theorem custom_empty_needs (env : ToolEnv) (c : Client)
    (owner repo user_prompt : String)
    (hc : needs_commit_info user_prompt = false)
    (hr : needs_repo_info user_prompt = false) :
    (handle_custom_analysis env c owner repo user_prompt).2 = [] ∧
    toolCallCount (handle_custom_analysis env c owner repo user_prompt).1 = 0 ∧
    needs_commit_info "What does this function do?" = false ∧
    needs_repo_info "What does this function do?" = false := by
  refine ⟨?_, ?_, by decide, by decide⟩ <;>
  · by_cases hup : user_prompt = ""
    · simp [handle_custom_analysis, hup, toolCallCount]
    · cases hdt : c.disable_tools <;>
        simp [handle_custom_analysis, hup, hdt, hc, hr, entryIf, analyze_events,
          toolCallCount, Event.isToolCall]

/-- C7 witness: a keyword-free prompt on an enabled, connected client. -/
theorem custom_empty_needs_witness :
    (handle_custom_analysis failingEnv ⟨false, some ()⟩ "o" "r" "hello there").2 = [] ∧
    toolCallCount (handle_custom_analysis failingEnv ⟨false, some ()⟩ "o" "r" "hello there").1 = 0 ∧
    needs_commit_info "What does this function do?" = false ∧
    needs_repo_info "What does this function do?" = false :=
  custom_empty_needs failingEnv ⟨false, some ()⟩ "o" "r" "hello there"
    (by decide) (by decide)

/-- C5: in the enabled custom workflow, the assembled context has an
entry under a label exactly when that label's tool call was needed and
returned usable (truthy) data. -/
theorem custom_context_entries (env : ToolEnv) (c : Client)
    (owner repo user_prompt : String) (v : JValue)
    (hd : c.disable_tools = false) (hu : user_prompt ≠ "") :
    (("commits", v) ∈ (handle_custom_analysis env c owner repo user_prompt).2 ↔
      needs_commit_info user_prompt = true ∧
      (get_commits env c owner repo 5).1 = some v ∧ v.truthy = true) ∧
    (("repo", v) ∈ (handle_custom_analysis env c owner repo user_prompt).2 ↔
      needs_repo_info user_prompt = true ∧
      (get_repo_info env c owner repo).1 = some v ∧ v.truthy = true) := by
  cases hnc : needs_commit_info user_prompt <;>
    cases hnr : needs_repo_info user_prompt <;>
      simp [handle_custom_analysis, hu, hd, hnc, hnr, mem_entryIf]

/-- C5 witness: with both labels needed, a successful commit fetch and a
failed repo fetch, exactly the commits entry is present. -/
theorem custom_context_entries_witness :
    (("commits", JValue.arr [JValue.num 1]) ∈
      (handle_custom_analysis mixedEnv ⟨false, some ()⟩ "o" "r"
        "commit history of this repo").2 ↔
      needs_commit_info "commit history of this repo" = true ∧
      (get_commits mixedEnv ⟨false, some ()⟩ "o" "r" 5).1 =
        some (JValue.arr [JValue.num 1]) ∧
      (JValue.arr [JValue.num 1]).truthy = true) ∧
    (("repo", JValue.arr [JValue.num 1]) ∈
      (handle_custom_analysis mixedEnv ⟨false, some ()⟩ "o" "r"
        "commit history of this repo").2 ↔
      needs_repo_info "commit history of this repo" = true ∧
      (get_repo_info mixedEnv ⟨false, some ()⟩ "o" "r").1 =
        some (JValue.arr [JValue.num 1]) ∧
      (JValue.arr [JValue.num 1]).truthy = true) :=
  custom_context_entries mixedEnv ⟨false, some ()⟩ "o" "r"
    "commit history of this repo" (JValue.arr [JValue.num 1]) rfl (by decide)

/-- C1 counterexample: with a Ready session and a commit tool that
raises, the fixed commit workflow issues its tool call but returns
without any analyze call, contradicting the claim that every workflow
still calls AnalysisInvoker after a tool failure. -/
theorem fixed_workflow_drops_analyze_counterexample :
    toolCallCount (handle_commit_analysis failingEnv ⟨false, some ()⟩ "octo" "hello") = 1 ∧
    analyzeContexts (handle_commit_analysis failingEnv ⟨false, some ()⟩ "octo" "hello") = [] ∧
    analyzeContexts (handle_repo_analysis failingEnv ⟨false, some ()⟩ "octo" "hello") = [] := by
  refine ⟨rfl, rfl, rfl⟩

/-- C1 amended: in the custom workflow a tool failure only narrows the
context — analyze is always called exactly once with the serialization
of whatever context remains; in the two fixed workflows, a tool call
that fails or returns no usable data makes the workflow return early
without an analyze call. -/
theorem tool_failure_narrows_custom_only (env : ToolEnv) (c : Client)
    (owner repo user_prompt : String)
    (hd : c.disable_tools = false) (hu : user_prompt ≠ "") :
    analyzeContexts (handle_custom_analysis env c owner repo user_prompt).1 =
      [env.dumps (JValue.obj (handle_custom_analysis env c owner repo user_prompt).2)] ∧
    (pyTruthy (get_commits env c owner repo 5).1 = false →
      analyzeContexts (handle_commit_analysis env c owner repo) = []) ∧
    (pyTruthy (get_repo_info env c owner repo).1 = false →
      analyzeContexts (handle_repo_analysis env c owner repo) = []) := by
  refine ⟨?_, ?_, ?_⟩
  · cases hnc : needs_commit_info user_prompt <;>
      cases hnr : needs_repo_info user_prompt <;>
        simp [handle_custom_analysis, hu, hd, hnc, hnr, analyzeContexts_append,
          analyzeContexts_get_commits, analyzeContexts_get_repo_info,
          analyzeContexts_analyze_events]
  · intro hp
    cases hres : (get_commits env c owner repo 5).1 with
    | none => simp [handle_commit_analysis, hd, hres, analyzeContexts_get_commits]
    | some w =>
      have hw : w.truthy = false := by simpa [pyTruthy, hres] using hp
      simp [handle_commit_analysis, hd, hres, hw, analyzeContexts_get_commits]
  · intro hp
    cases hres : (get_repo_info env c owner repo).1 with
    | none => simp [handle_repo_analysis, hd, hres, analyzeContexts_get_repo_info]
    | some w =>
      have hw : w.truthy = false := by simpa [pyTruthy, hres] using hp
      simp [handle_repo_analysis, hd, hres, hw, analyzeContexts_get_repo_info]

/-- C1 amended witness: concrete run with every tool raising. -/
theorem tool_failure_narrows_custom_only_witness :
    analyzeContexts (handle_custom_analysis failingEnv ⟨false, some ()⟩ "o" "r" "ask").1 =
      [failingEnv.dumps (JValue.obj (handle_custom_analysis failingEnv ⟨false, some ()⟩ "o" "r" "ask").2)] ∧
    (pyTruthy (get_commits failingEnv ⟨false, some ()⟩ "o" "r" 5).1 = false →
      analyzeContexts (handle_commit_analysis failingEnv ⟨false, some ()⟩ "o" "r") = []) ∧
    (pyTruthy (get_repo_info failingEnv ⟨false, some ()⟩ "o" "r").1 = false →
      analyzeContexts (handle_repo_analysis failingEnv ⟨false, some ()⟩ "o" "r") = []) :=
  tool_failure_narrows_custom_only failingEnv ⟨false, some ()⟩ "o" "r" "ask"
    rfl (by decide)

/-- A successful commit fetch implies an enabled client with a live
session. -/
theorem get_commits_some_enabled (env : ToolEnv) (c : Client)
    (owner repo : String) (limit : Nat) (v : JValue)
    (h : (get_commits env c owner repo limit).1 = some v) :
    c.disable_tools = false ∧ c.session = some () := by
  rcases c with ⟨dt, sess⟩
  cases dt <;> rcases sess with _ | ⟨⟩ <;> simp_all [get_commits]

/-- A successful repo-info fetch implies an enabled client with a live
session. -/
theorem get_repo_info_some_enabled (env : ToolEnv) (c : Client)
    (owner repo : String) (v : JValue)
    (h : (get_repo_info env c owner repo).1 = some v) :
    c.disable_tools = false ∧ c.session = some () := by
  rcases c with ⟨dt, sess⟩
  cases dt <;> rcases sess with _ | ⟨⟩ <;> simp_all [get_repo_info]

/-- C10: a tool call that succeeds but parses to a falsy payload (an
empty list of commits, or an empty object of repository data) is
treated exactly like a failed call, tool by tool: if the commit fetch
alone yields a falsy payload, the commit workflow and the custom
workflow behave as if the commit tool had raised, and independently, if
the repo fetch alone yields a falsy payload, the repo workflow and the
custom workflow behave as if the repo tool had raised. -/
theorem falsy_payload_like_failure (env : ToolEnv) (c : Client)
    (owner repo user_prompt : String) :
    (∀ v : JValue, (get_commits env c owner repo 5).1 = some v → v.truthy = false →
      handle_commit_analysis env c owner repo =
        handle_commit_analysis (withRaisedCommits env) c owner repo ∧
      handle_custom_analysis env c owner repo user_prompt =
        handle_custom_analysis (withRaisedCommits env) c owner repo user_prompt) ∧
    (∀ w : JValue, (get_repo_info env c owner repo).1 = some w → w.truthy = false →
      handle_repo_analysis env c owner repo =
        handle_repo_analysis (withRaisedRepoInfo env) c owner repo ∧
      handle_custom_analysis env c owner repo user_prompt =
        handle_custom_analysis (withRaisedRepoInfo env) c owner repo user_prompt) := by
  constructor
  · intro v hcv hv
    obtain ⟨hd, hs⟩ := get_commits_some_enabled env c owner repo 5 v hcv
    have hc2 : (get_commits env c owner repo 5).2 =
        [Event.toolCall "get_commit_history" owner repo (some 5)] := by
      rw [get_commits]; simp [hd, hs]
    have hc' : get_commits (withRaisedCommits env) c owner repo 5 =
        (none, [Event.toolCall "get_commit_history" owner repo (some 5)]) := by
      rw [get_commits]; simp [hd, hs, withRaisedCommits]
    have hrEq : get_repo_info (withRaisedCommits env) c owner repo =
        get_repo_info env c owner repo := rfl
    constructor
    · rw [handle_commit_analysis, handle_commit_analysis, hc']
      simp [hd, hcv, hv, hc2, withRaisedCommits]
    · by_cases hup : user_prompt = ""
      · simp [handle_custom_analysis, hup]
      · rw [handle_custom_analysis, handle_custom_analysis, hc', hrEq]
        cases hnc : needs_commit_info user_prompt <;>
          cases hnr : needs_repo_info user_prompt <;>
            simp [hup, hd, hnc, hnr, hcv, hv, hc2, entryIf,
              analyze_events, analyze_with_ollama, withRaisedCommits]
  · intro w hrw hw
    obtain ⟨hd, hs⟩ := get_repo_info_some_enabled env c owner repo w hrw
    have hr2 : (get_repo_info env c owner repo).2 =
        [Event.toolCall "get_repo_info" owner repo none] := by
      rw [get_repo_info]; simp [hd, hs]
    have hr' : get_repo_info (withRaisedRepoInfo env) c owner repo =
        (none, [Event.toolCall "get_repo_info" owner repo none]) := by
      rw [get_repo_info]; simp [hd, hs, withRaisedRepoInfo]
    have hcEq : get_commits (withRaisedRepoInfo env) c owner repo 5 =
        get_commits env c owner repo 5 := rfl
    constructor
    · rw [handle_repo_analysis, handle_repo_analysis, hr']
      simp [hd, hrw, hw, hr2, withRaisedRepoInfo]
    · by_cases hup : user_prompt = ""
      · simp [handle_custom_analysis, hup]
      · rw [handle_custom_analysis, handle_custom_analysis, hr', hcEq]
        cases hnc : needs_commit_info user_prompt <;>
          cases hnr : needs_repo_info user_prompt <;>
            simp [hup, hd, hnc, hnr, hrw, hw, hr2, entryIf,
              analyze_events, analyze_with_ollama, withRaisedRepoInfo]

/-- C10 witness: a commit tool answering an empty JSON list while the
repo tool has truthy data behaves exactly like a raising commit tool;
symmetrically, a repo tool answering an empty JSON object while the
commit tool has truthy data behaves exactly like a raising repo tool. -/
theorem falsy_payload_like_failure_witness :
    (handle_commit_analysis commitsFalsyEnv ⟨false, some ()⟩ "o" "r" =
       handle_commit_analysis (withRaisedCommits commitsFalsyEnv) ⟨false, some ()⟩ "o" "r" ∧
     handle_custom_analysis commitsFalsyEnv ⟨false, some ()⟩ "o" "r"
         "commit history of this repo" =
       handle_custom_analysis (withRaisedCommits commitsFalsyEnv) ⟨false, some ()⟩ "o" "r"
         "commit history of this repo") ∧
    (handle_repo_analysis repoFalsyEnv ⟨false, some ()⟩ "o" "r" =
       handle_repo_analysis (withRaisedRepoInfo repoFalsyEnv) ⟨false, some ()⟩ "o" "r" ∧
     handle_custom_analysis repoFalsyEnv ⟨false, some ()⟩ "o" "r"
         "commit history of this repo" =
       handle_custom_analysis (withRaisedRepoInfo repoFalsyEnv) ⟨false, some ()⟩ "o" "r"
         "commit history of this repo") :=
  ⟨(falsy_payload_like_failure commitsFalsyEnv ⟨false, some ()⟩ "o" "r"
      "commit history of this repo").1 (JValue.arr []) rfl rfl,
   (falsy_payload_like_failure repoFalsyEnv ⟨false, some ()⟩ "o" "r"
      "commit history of this repo").2 (JValue.obj []) rfl rfl⟩

end GithubAnalysis
